import Mathlib

/-
  Verification development for the wp-accessibility-validator plugin.

  Shallow embedding of the scan pipeline of the plugin:
  - the storage adapter (src/utils/storage.ts: getStorageKey, loadStoredScan,
    saveStoredScan),
  - the staleness check (src/hooks/useStoredScan.ts: isScanStale),
  - the block stable-id generator (src/utils/scanner.ts: generateBlockStableId),
  - the violation-to-block correlation step of runPreviewScan
    (src/utils/scanner.ts lines 188-299),
  - the axe run-option construction (src/utils/scanner.ts lines 161-171) and
    the WCAG tag configuration (src/utils/wcag.ts),
  - the scan trigger guard (src/hooks/useAccessibilityScan.ts: handleScanClick),
  - the deprecated runClientSideScan (src/utils/scanner.ts lines 51-55).

  Platform functions that the code calls but does not define (the md5 library
  function, the browser CSS selector engine, JSON.parse/JSON.stringify,
  Date.parse) are modelled as explicit parameters or as abstract inputs: the
  browser storage is modelled at the level of parsed JSON values (writing
  JSON.stringify d and later reading it back with JSON.parse yields the same
  JSON value, so composing the two out of the model is faithful; an
  unparseable stored string is modelled as an explicit "parse failed" entry).
-/

set_option autoImplicit false

/-! ## JSON value model

A parsed JavaScript JSON value, as produced by JSON.parse. Numbers are
modelled as integers: every numeric field the storage adapter reads is an
integer count, and the validation logic only inspects the type tag of a
number, never its value. -/

inductive JsVal where
  | jsNull
  | jsBool (b : Bool)
  | jsNum (n : Int)
  | jsStr (s : String)
  | jsArr (elems : List JsVal)
  | jsObj (fields : List (String × JsVal))

/-- JavaScript truthiness of a JSON value (`!parsed` in the source). -/
def jsTruthy : JsVal → Bool
  | .jsNull => false
  | .jsBool b => b
  | .jsNum n => n != 0
  | .jsStr s => s != ""
  | .jsArr _ => true
  | .jsObj _ => true

/-- Whether `typeof v === 'object'` holds in JavaScript (true for null,
arrays and plain objects). -/
def jsTypeofObject : JsVal → Bool
  | .jsNull => true
  | .jsArr _ => true
  | .jsObj _ => true
  | _ => false

/-- Property access `v[key]` on a parsed JSON value: `none` models the
JavaScript value `undefined`. JSON.parse keeps the last of duplicate keys,
so the lookup walks the field list from the right. -/
def jsGet (v : JsVal) (key : String) : Option JsVal :=
  match v with
  | .jsObj fields => (fields.reverse.find? (fun p => p.1 == key)).map (·.2)
  | _ => none

/-! ## Storage adapter (src/utils/storage.ts)

`StoredScan` is the persisted record layout of src/types.ts: integer counts,
loosely-typed violation and error arrays (the validation only checks
`Array.isArray`), the content hash and the completion timestamp. -/

structure StoredScan where
  totalBlocks : Int
  scannedBlocks : Int
  skippedBlocks : Int
  violations : List JsVal
  errors : List JsVal
  contentHash : String
  completedAt : String

/-- The JSON value that `JSON.stringify` produces for a `StoredScan`
(field order as declared in src/types.ts). -/
def encodeStoredScan (d : StoredScan) : JsVal :=
  .jsObj
    [ ("totalBlocks", .jsNum d.totalBlocks)
    , ("scannedBlocks", .jsNum d.scannedBlocks)
    , ("skippedBlocks", .jsNum d.skippedBlocks)
    , ("violations", .jsArr d.violations)
    , ("errors", .jsArr d.errors)
    , ("contentHash", .jsStr d.contentHash)
    , ("completedAt", .jsStr d.completedAt)
    ]

/-- The structural validation block of `loadStoredScan`
(src/utils/storage.ts lines 246-261), applied to the parsed JSON value.
`dateParseOk s` models `!Number.isNaN(Date.parse(s))`, i.e. whether the
platform accepts `s` as a timestamp. Returns the validated record, or
`none` where the source returns `null`. -/
def decodeStoredScan (dateParseOk : String → Bool) (j : JsVal) : Option StoredScan :=
  match jsGet j "totalBlocks", jsGet j "scannedBlocks", jsGet j "skippedBlocks",
        jsGet j "violations", jsGet j "errors",
        jsGet j "contentHash", jsGet j "completedAt" with
  | some (.jsNum tb), some (.jsNum sb), some (.jsNum kb),
    some (.jsArr vs), some (.jsArr es), some (.jsStr ch), some (.jsStr ca) =>
      if jsTruthy j && jsTypeofObject j && dateParseOk ca then
        some ⟨tb, sb, kb, vs, es, ch, ca⟩
      else
        none
  | _, _, _, _, _, _, _ => none

/-- The browser localStorage, keyed by string. A stored raw string is
represented by its JSON.parse result: `some j` when it parses to `j`,
`none` when JSON.parse would throw on it (malformed data written by
something other than `saveStoredScan`). -/
def LocalStorageModel := List (String × Option JsVal)

/-- `localStorage.getItem(key)`: `none` models a missing key (getItem
returning null). -/
def storeGetItem (st : LocalStorageModel) (key : String) : Option (Option JsVal) :=
  (st.find? (fun p => p.1 == key)).map (·.2)

/-- `localStorage.setItem(key, raw)`: later writes shadow earlier ones. -/
def storeSetItem (st : LocalStorageModel) (key : String) (v : Option JsVal) :
    LocalStorageModel :=
  (key, v) :: st

/-- `getStorageKey` (src/utils/storage.ts lines 217-218): the fixed
storage key base followed by the post id; `none` when there is no post id. -/
def getStorageKey (postId : Option Int) : Option String :=
  postId.map (fun n => "wpav-scan-" ++ toString n)

/-- `loadStoredScan` (src/utils/storage.ts lines 232-269): read the raw
item, parse it, and structurally validate it; every failure path returns
`none` (the source returns null from inside a try/catch and never
raises). -/
def loadStoredScan (dateParseOk : String → Bool) (key : String)
    (st : LocalStorageModel) : Option StoredScan :=
  match storeGetItem st key with
  | none => none
  | some none => none
  | some (some j) => decodeStoredScan dateParseOk j

/-- `saveStoredScan` (src/utils/storage.ts lines 282-293): serialize the
record and write it under the key. -/
def saveStoredScan (key : String) (d : StoredScan) (st : LocalStorageModel) :
    LocalStorageModel :=
  storeSetItem st key (some (encodeStoredScan d))

/-! ## Staleness check (src/hooks/useStoredScan.ts lines 79-85) -/

/-- `isScanStale`: false when no scan is stored, otherwise true exactly
when the stored content hash differs from the current snapshot. -/
def isScanStale (storedScan : Option StoredScan) (contentSnapshot : String) : Bool :=
  match storedScan with
  | none => false
  | some s => s.contentHash != contentSnapshot

/-! ## Editor blocks and stable ids (src/utils/scanner.ts, src/types.ts)

A `WPBlock` is a content unit of the editor: `getBlocks()` of the block
editor store returns the top-level blocks, each carrying its nested
children in `innerBlocks`. -/

inductive WPBlock where
  | mk (name clientId originalContent : String) (innerBlocks : List WPBlock)

def WPBlock.name : WPBlock → String
  | .mk n _ _ _ => n

def WPBlock.clientId : WPBlock → String
  | .mk _ c _ _ => c

def WPBlock.originalContent : WPBlock → String
  | .mk _ _ o _ => o

def WPBlock.innerBlocks : WPBlock → List WPBlock
  | .mk _ _ _ inner => inner

/-- `generateBlockStableId` (src/utils/scanner.ts lines 36-38): the first
12 characters of the md5 hash of the block's original content. The md5
library function is passed in as a parameter. -/
def generateBlockStableId (md5 : String → String) (block : WPBlock) : String :=
  (md5 block.originalContent).take 12

/-- `flattenBlocks` (src/hooks/useCurrentBlocks.ts): recursively flattens
a block tree into a single list including all nested inner blocks. -/
def flattenBlocks : List WPBlock → List WPBlock
  | [] => []
  | .mk n c o inner :: rest =>
      .mk n c o inner :: (flattenBlocks inner ++ flattenBlocks rest)

/-! ## Live preview document model

The correlation step queries the preview iframe document through the
browser CSS selector engine (`querySelector` / `querySelectorAll`) and
then only walks up the ancestor chain of matched elements, reading the
`data-wpav-block-id` attribute. The document is therefore modelled by what
those calls can observe: a map from selector strings to either an invalid
selector error (the engine throws) or the matched elements in DOM order,
each given by its own attribute list followed by those of its ancestors. -/

structure DomElement where
  attrs : List (String × String)
deriving DecidableEq

/-- One element matched by a selector query, as the chain of attribute
lists of the element itself (head) and its ancestors, in order. -/
structure MatchedElement where
  chain : List DomElement
deriving DecidableEq

inductive DomQueryResult where
  | invalid
  | found (els : List MatchedElement)
deriving DecidableEq

/-- The live preview document, observed through selector queries. -/
def LiveDoc := String → DomQueryResult

/-- `el.getAttribute(name)` / `el.hasAttribute(name)` on one element. -/
def lookupAttr (e : DomElement) (name : String) : Option String :=
  (e.attrs.find? (fun p => p.1 == name)).map (·.2)

/-- The ancestor walk of the correlation step (src/utils/scanner.ts lines
248-259): starting from the matched element, return the attribute value of
the first element in the chain that has `data-wpav-block-id`. -/
def chainBlockId : List DomElement → Option String
  | [] => none
  | e :: rest =>
      match lookupAttr e "data-wpav-block-id" with
      | some v => some v
      | none => chainBlockId rest

/-! ## Raw axe results and the correlation step
(src/utils/scanner.ts lines 186-290) -/

/-- One affected node of an axe result: its selector list (`node.target`)
and its captured markup snippet (`node.html`; `none` models a missing
property). -/
structure AxeNode where
  target : List String
  html : Option String
deriving DecidableEq

/-- One raw axe result (violation or incomplete), reduced to the parts the
correlation step reads: the rule id and the affected nodes. -/
structure AxeViolation where
  ruleId : String
  nodes : List AxeNode
deriving DecidableEq

/-- A violation mapped back to an editor block (`ViolationWithContext`
of src/types.ts): the rule id plus the matched block's name and client id. -/
structure ViolationWithContext where
  ruleId : String
  blockName : String
  blockClientId : String
deriving DecidableEq

/-- JavaScript truthiness of the `blockId` variable of the mapping loop
(a string value: null and the empty string are falsy). -/
def optStrTruthy : Option String → Bool
  | none => false
  | some s => s != ""

/-- `iframeDoc.querySelector(node.target[0])` guarded by
`node.target && node.target.length > 0` and a try/catch
(src/utils/scanner.ts lines 239-245): the first element matched by the
node's first selector, `none` on an empty selector list, an invalid
selector, or no match. -/
def firstTargetElement (doc : LiveDoc) (target : List String) : Option MatchedElement :=
  match target with
  | [] => none
  | sel :: _ =>
      match doc sel with
      | .invalid => none
      | .found els => els.head?

/-- The capture group of `node.html.match(/data-wpav-block-id="([^"]*)"/)`:
drop everything up to and including the first occurrence of the literal
attribute pattern, or fail when it does not occur. -/
def dropThroughPattern (pat : List Char) : List Char → Option (List Char)
  | [] => if pat.isPrefixOf ([] : List Char) then some [] else none
  | c :: t =>
      if pat.isPrefixOf (c :: t) then some ((c :: t).drop pat.length)
      else dropThroughPattern pat t

/-- The regex fallback of the mapping loop (src/utils/scanner.ts lines
260-266): extract the quoted value of the first `data-wpav-block-id`
attribute occurring in the markup snippet; the regex requires a closing
quote after the captured value. -/
def extractBlockIdFromHtml (html : String) : Option String :=
  match dropThroughPattern "data-wpav-block-id=\"".data html.data with
  | none => none
  | some rest =>
      let captured := rest.takeWhile (fun c => c != '"')
      if captured.length < rest.length then some (String.mk captured) else none

/-- One iteration of the `for` loop over `violation.nodes` of the
mapping step (src/utils/scanner.ts lines 236-266), carrying the current
value of the `blockId` variable: when the first-selector query finds an
element, the ancestor walk may overwrite `blockId`; only when it finds no
element is the markup snippet consulted (and only when the snippet is a
truthy string). -/
def resolveNodeStep (doc : LiveDoc) (node : AxeNode) (blockId : Option String) :
    Option String :=
  match firstTargetElement doc node.target with
  | some el =>
      match chainBlockId el.chain with
      | some v => some v
      | none => blockId
  | none =>
      match node.html with
      | some h =>
          if h != "" then
            match extractBlockIdFromHtml h with
            | some v => some v
            | none => blockId
          else blockId
      | none => blockId

/-- The full node loop of the mapping step: stop as soon as
`blockId` becomes truthy, otherwise continue with the carried value. -/
def resolveBlockIdLoop (doc : LiveDoc) : List AxeNode → Option String → Option String
  | [], blockId => blockId
  | node :: rest, blockId =>
      let next := resolveNodeStep doc node blockId
      if optStrTruthy next then next else resolveBlockIdLoop doc rest next

/-- The per-node filter of the first pass (src/utils/scanner.ts lines
190-220): a node is kept when some selector of the node (invalid selectors
are skipped) matches some element that lies inside a block, i.e. whose
ancestor chain carries `data-wpav-block-id`. -/
def nodeInsideBlock (doc : LiveDoc) (node : AxeNode) : Bool :=
  node.target.any fun sel =>
    match doc sel with
    | .invalid => false
    | .found els =>
        els.any fun el =>
          el.chain.any fun e => (lookupAttr e "data-wpav-block-id").isSome

/-- The per-violation body of the mapping step (src/utils/scanner.ts lines
234-285): resolve a block id from the nodes, and when it is truthy and
some block of the editor's top-level block list generates that stable id,
emit the violation tagged with that block's name and client id; otherwise
drop the violation. -/
def mapViolationToBlock (doc : LiveDoc) (blocks : List WPBlock)
    (md5 : String → String) (v : AxeViolation) : Option ViolationWithContext :=
  match resolveBlockIdLoop doc v.nodes none with
  | some bid =>
      if bid != "" then
        match blocks.find? (fun b => generateBlockStableId md5 b == bid) with
        | some b => some ⟨v.ruleId, b.name, b.clientId⟩
        | none => none
      else none
  | none => none

/-- The correlation step of `runPreviewScan` (src/utils/scanner.ts lines
186-290): filter each result's nodes to those inside a block, keep results
that still have a node, then map each surviving result to at most one
block-tagged violation. `blocks` is the list returned by `getBlocks()` of
the block editor store (src/utils/scanner.ts lines 80-82). -/
def correlateViolations (doc : LiveDoc) (blocks : List WPBlock)
    (md5 : String → String) (results : List AxeViolation) :
    List ViolationWithContext :=
  let filtered :=
    (results.map fun v => { v with nodes := v.nodes.filter (nodeInsideBlock doc) }).filter
      fun v => v.nodes.length > 0
  filtered.filterMap (mapViolationToBlock doc blocks md5)

/-! ## Axe run options and WCAG tag configuration
(src/utils/scanner.ts lines 161-171, src/utils/wcag.ts) -/

/-- The `runOnly` restriction of axe run options. -/
structure RunOnly where
  type : String
  values : List String
deriving DecidableEq

/-- The axe `RunOptions` fields the scanner sets. -/
structure RunOptions where
  resultTypes : List String
  runOnly : Option RunOnly
deriving DecidableEq

/-- The run-option construction of `runPreviewScan` (src/utils/scanner.ts
lines 161-171): always request violations and incomplete results; attach a
`runOnly` tag restriction exactly when the configured tag list is
non-empty. -/
def buildRunOptions (wcagTags : List String) : RunOptions :=
  let base : RunOptions := { resultTypes := ["violations", "incomplete"], runOnly := none }
  if wcagTags.length > 0 then
    { base with runOnly := some { type := "tag", values := wcagTags } }
  else base

/-- `DEFAULT_WCAG_TAGS` (src/constants.ts). -/
def defaultWcagTagList : List String :=
  ["wcag2a", "wcag2aa", "wcag2aaa", "wcag21a", "wcag21aa", "wcag22aa"]

/-- `window.wpavSettings` (src/types.ts): the settings object injected by
the host. `wcagTags` elements are loosely typed at runtime, so they are
modelled as JSON values; a `none` field models an absent property. -/
structure WpavSettings where
  availableWcagTags : Option (List (String × String))
  defaultWcagTags : Option (List String)
  wcagTags : Option (List JsVal)

/-- `getAvailableWcagLabels` (src/utils/wcag.ts): the label map from the
settings, or empty. -/
def getAvailableWcagLabels (settings : Option WpavSettings) : List (String × String) :=
  (settings.bind (fun s => s.availableWcagTags)).getD []

/-- `resolveDefaultWcagTags` (src/utils/wcag.ts): the configured defaults
when non-empty, else the label keys when non-empty, else the hardcoded
default tag list. -/
def resolveDefaultWcagTags (settings : Option WpavSettings) : List String :=
  let labelKeys := (getAvailableWcagLabels settings).map (·.1)
  let fallback := if labelKeys.length > 0 then labelKeys else defaultWcagTagList
  match settings.bind (fun s => s.defaultWcagTags) with
  | some ds => if ds.length > 0 then ds else fallback
  | none => fallback

/-- `getConfiguredWcagTags` (src/utils/wcag.ts lines 530-542 of the
bundled source): the configured tag list filtered to strings when it is a
non-empty array, otherwise the resolved defaults. -/
def getConfiguredWcagTags (settings : Option WpavSettings) : List String :=
  match settings.bind (fun s => s.wcagTags) with
  | some tags =>
      if tags.length > 0 then
        tags.filterMap (fun t => match t with | .jsStr v => some v | _ => none)
      else resolveDefaultWcagTags settings
  | none => resolveDefaultWcagTags settings

/-- The run options `runPreviewScan` passes to the audit engine for a given
settings object. -/
def scanRunOptions (settings : Option WpavSettings) : RunOptions :=
  buildRunOptions (getConfiguredWcagTags settings)

/-! ## Scan trigger (src/hooks/useAccessibilityScan.ts lines 79-149)

The scan lifecycle is single-threaded and cooperative: the synchronous
prefix of `handleScanClick` (guard, flag set, run start) executes atomically
before any further trigger is processed, and the `finally` block clears the
flag when the run reaches a terminal state. The state tracks the
`isScanning` flag and the number of pipeline runs started. -/

structure ScanState where
  isScanning : Bool
  runsStarted : Nat
deriving DecidableEq

/-- The synchronous prefix of `handleScanClick`
(src/hooks/useAccessibilityScan.ts lines 79-89): return unchanged while a
scan is in flight, otherwise set the flag and start one pipeline run. -/
def handleScanClick (s : ScanState) : ScanState :=
  if s.isScanning then s
  else { isScanning := true, runsStarted := s.runsStarted + 1 }

/-- The `finally` block of `handleScanClick`
(src/hooks/useAccessibilityScan.ts lines 147-149): the run reached a
terminal state (success or failure) and the flag is cleared. -/
def finishScan (s : ScanState) : ScanState :=
  { s with isScanning := false }

/-! ## Deprecated client-side scan (src/utils/scanner.ts lines 51-55) -/

/-- The `ScanMetrics` record (src/types.ts) returned by a successful scan. -/
structure ScanMetrics where
  totalBlocks : Int
  scannedBlocks : Int
  skippedBlocks : Int
  violations : List ViolationWithContext
  errors : List String
deriving DecidableEq

/-- `runClientSideScan` (src/utils/scanner.ts lines 51-55): the deprecated
entry point; its body is a single unconditional throw, modelled as the
error branch of `Except`. -/
def runClientSideScan : Except String ScanMetrics :=
  .error
    "Client-side block scanning is no longer supported. Use preview scanning instead."

/-! ## Claim theorems -/

/-- C10: the deprecated export `runClientSideScan` rejects on every
invocation and never returns scan metrics. -/
theorem runClientSideScan_never_ok :
    ∀ m : ScanMetrics, runClientSideScan ≠ Except.ok m := by
  intro m h
  simp [runClientSideScan] at h

/-- C8: when a stored scan exists, `isScanStale` is true exactly when the
current content snapshot differs from the stored content hash. -/
theorem isScanStale_iff_hash_differs :
    ∀ (s : StoredScan) (contentSnapshot : String),
      isScanStale (some s) contentSnapshot = true ↔
        contentSnapshot ≠ s.contentHash := by
  intro s snap
  simp [isScanStale, bne_iff_ne]
  exact ne_comm

/-- C9: the audit engine receives no `runOnly` tag restriction exactly
when the configured tag filter is empty, and is restricted to exactly the
configured tags when the filter is non-empty (the result types requested
are always violations and incomplete). -/
theorem scanRunOptions_tag_filter :
    ∀ settings : Option WpavSettings,
      (getConfiguredWcagTags settings = [] →
        (scanRunOptions settings).runOnly = none) ∧
      (getConfiguredWcagTags settings ≠ [] →
        (scanRunOptions settings).runOnly =
          some ⟨"tag", getConfiguredWcagTags settings⟩) ∧
      (scanRunOptions settings).resultTypes = ["violations", "incomplete"] := by
  intro settings
  refine ⟨?_, ?_, ?_⟩
  · intro h
    simp [scanRunOptions, buildRunOptions, h]
  · intro h
    have hl : 0 < (getConfiguredWcagTags settings).length := List.length_pos.mpr h
    simp [scanRunOptions, buildRunOptions, hl]
  · by_cases hl : 0 < (getConfiguredWcagTags settings).length <;>
      simp [scanRunOptions, buildRunOptions, hl]

/-- Witness for C9: a filter that ends up empty (a non-empty configured
array containing no strings) yields no restriction; a one-tag filter
yields exactly that tag. -/
theorem scanRunOptions_tag_filter_witness :
    (scanRunOptions (some ⟨none, none, some [JsVal.jsNum 5]⟩)).runOnly = none ∧
    (scanRunOptions (some ⟨none, none, some [JsVal.jsStr "wcag2a"]⟩)).runOnly =
      some ⟨"tag", ["wcag2a"]⟩ :=
  ⟨(scanRunOptions_tag_filter (some ⟨none, none, some [JsVal.jsNum 5]⟩)).1 rfl,
   (scanRunOptions_tag_filter (some ⟨none, none, some [JsVal.jsStr "wcag2a"]⟩)).2.1
     (by decide)⟩

/-- C5: single-flight of the scan trigger: a second `handleScanClick`
while a scan is in flight leaves the state unchanged (a silent no-op), a
trigger starts at most one new pipeline run, and from an idle state it
starts exactly one. -/
theorem handleScanClick_single_flight :
    ∀ s : ScanState,
      handleScanClick (handleScanClick s) = handleScanClick s ∧
      (handleScanClick s).runsStarted ≤ s.runsStarted + 1 ∧
      (s.isScanning = false →
        (handleScanClick s).runsStarted = s.runsStarted + 1 ∧
        (handleScanClick s).isScanning = true) := by
  intro s
  by_cases h : s.isScanning <;>
    simp [handleScanClick, h, Nat.le_succ]

/-- Witness for C5: from the idle start state, double-triggering runs
exactly one pipeline. -/
theorem handleScanClick_single_flight_witness :
    handleScanClick (handleScanClick ⟨false, 0⟩) = handleScanClick ⟨false, 0⟩ ∧
    (handleScanClick ⟨false, 0⟩).runsStarted = 1 :=
  ⟨(handleScanClick_single_flight ⟨false, 0⟩).1,
   ((handleScanClick_single_flight ⟨false, 0⟩).2.2 rfl).1⟩

/-- C4 counterexample: two distinct block instances (different client ids)
with identical original content receive the same stable identifier, so
stable ids are not unique within a render. -/
theorem generateBlockStableId_collision :
    generateBlockStableId (fun s => s)
        (.mk "core/paragraph" "client-1" "<p>same content</p>" []) =
      generateBlockStableId (fun s => s)
        (.mk "core/paragraph" "client-2" "<p>same content</p>" []) ∧
    WPBlock.clientId (.mk "core/paragraph" "client-1" "<p>same content</p>" []) ≠
      WPBlock.clientId (.mk "core/paragraph" "client-2" "<p>same content</p>" []) := by
  exact ⟨rfl, by decide⟩

/-- C4 (amended): the stable identifier is a function of the block's
original content alone, so blocks with identical content always receive
identical identifiers; uniqueness within a render holds only when block
contents (and their hash prefixes) differ. -/
theorem generateBlockStableId_content_determined :
    ∀ (md5 : String → String) (b1 b2 : WPBlock),
      b1.originalContent = b2.originalContent →
      generateBlockStableId md5 b1 = generateBlockStableId md5 b2 := by
  intro md5 b1 b2 h
  simp [generateBlockStableId, h]

/-- Witness for C4 (amended): two blocks sharing content receive the same
identifier under an arbitrary concrete hash. -/
theorem generateBlockStableId_content_determined_witness :
    generateBlockStableId (fun s => s ++ "salt") (.mk "core/image" "ca" "body" []) =
      generateBlockStableId (fun s => s ++ "salt") (.mk "core/heading" "cb" "body" []) :=
  generateBlockStableId_content_determined (fun s => s ++ "salt") _ _ rfl

/-- Inversion of the structural validation: a record is returned only
when the stored JSON value is a truthy object whose required fields are
all present with the right type tags and whose timestamp the platform
accepts. -/
theorem decodeStoredScan_inv (dp : String → Bool) (j : JsVal) (d : StoredScan)
    (h : decodeStoredScan dp j = some d) :
    jsTruthy j = true ∧ jsTypeofObject j = true ∧
    jsGet j "totalBlocks" = some (.jsNum d.totalBlocks) ∧
    jsGet j "scannedBlocks" = some (.jsNum d.scannedBlocks) ∧
    jsGet j "skippedBlocks" = some (.jsNum d.skippedBlocks) ∧
    jsGet j "violations" = some (.jsArr d.violations) ∧
    jsGet j "errors" = some (.jsArr d.errors) ∧
    jsGet j "contentHash" = some (.jsStr d.contentHash) ∧
    jsGet j "completedAt" = some (.jsStr d.completedAt) ∧
    dp d.completedAt = true := by
  unfold decodeStoredScan at h
  split at h
  case _ tb sb kb vs es ch ca h1 h2 h3 h4 h5 h6 h7 =>
    split at h
    case isTrue hcond =>
      obtain ⟨⟨htru, hobj⟩, hdp⟩ :
          (jsTruthy j = true ∧ jsTypeofObject j = true) ∧ dp ca = true := by
        constructor
        · constructor
          · exact (Bool.and_eq_true _ _).mp
              ((Bool.and_eq_true _ _).mp hcond).1 |>.1
          · exact (Bool.and_eq_true _ _).mp
              ((Bool.and_eq_true _ _).mp hcond).1 |>.2
        · exact ((Bool.and_eq_true _ _).mp hcond).2
      cases h
      exact ⟨htru, hobj, h1, h2, h3, h4, h5, h6, h7, hdp⟩
    case isFalse => exact absurd h (by simp)
  case _ => exact absurd h (by simp)

/-- C6: storage round-trip: saving a snapshot and loading it back under
the same key returns a structurally equal snapshot, for every snapshot
whose fields fit the persisted record layout (the integer counts, array
and string fields are enforced by the record type; the timestamp must be
accepted by the platform date parser). -/
theorem storedScan_roundtrip :
    ∀ (dateParseOk : String → Bool) (key : String) (d : StoredScan)
      (st : LocalStorageModel),
      dateParseOk d.completedAt = true →
      loadStoredScan dateParseOk key (saveStoredScan key d st) = some d := by
  intro dp key d st h
  have hget : storeGetItem (saveStoredScan key d st) key
      = some (some (encodeStoredScan d)) := by
    simp [saveStoredScan, storeSetItem, storeGetItem]
  have hdec : decodeStoredScan dp (encodeStoredScan d)
      = if dp d.completedAt then some d else none := rfl
  simp [loadStoredScan, hget, hdec, h]

/-- Witness for C6: a concrete snapshot survives the round trip. -/
theorem storedScan_roundtrip_witness :
    loadStoredScan (fun _ => true) "wpav-scan-7"
      (saveStoredScan "wpav-scan-7"
        ⟨2, 2, 0, [], [], "hash-a", "2024-05-01T10:00:00.000Z"⟩ [])
      = some ⟨2, 2, 0, [], [], "hash-a", "2024-05-01T10:00:00.000Z"⟩ :=
  storedScan_roundtrip (fun _ => true) "wpav-scan-7"
    ⟨2, 2, 0, [], [], "hash-a", "2024-05-01T10:00:00.000Z"⟩ [] rfl

/-- C7: `loadStoredScan` is total (the model is a total function, as the
source catches every failure): it returns no data on a missing key and on
data that JSON.parse rejects, and it returns a snapshot only when the
stored value is a truthy object whose required fields are all present and
correctly typed and whose timestamp parses. -/
theorem loadStoredScan_validates_or_none :
    ∀ (dp : String → Bool) (key : String) (st : LocalStorageModel),
      (storeGetItem st key = none → loadStoredScan dp key st = none) ∧
      (storeGetItem st key = some none → loadStoredScan dp key st = none) ∧
      (∀ d, loadStoredScan dp key st = some d →
        ∃ j, storeGetItem st key = some (some j) ∧
          jsTruthy j = true ∧ jsTypeofObject j = true ∧
          jsGet j "totalBlocks" = some (.jsNum d.totalBlocks) ∧
          jsGet j "scannedBlocks" = some (.jsNum d.scannedBlocks) ∧
          jsGet j "skippedBlocks" = some (.jsNum d.skippedBlocks) ∧
          jsGet j "violations" = some (.jsArr d.violations) ∧
          jsGet j "errors" = some (.jsArr d.errors) ∧
          jsGet j "contentHash" = some (.jsStr d.contentHash) ∧
          jsGet j "completedAt" = some (.jsStr d.completedAt) ∧
          dp d.completedAt = true) := by
  intro dp key st
  refine ⟨?_, ?_, ?_⟩
  · intro h
    simp [loadStoredScan, h]
  · intro h
    simp [loadStoredScan, h]
  · intro d h
    unfold loadStoredScan at h
    cases hg : storeGetItem st key with
    | none => rw [hg] at h; simp at h
    | some o =>
      cases o with
      | none => rw [hg] at h; simp at h
      | some j =>
        rw [hg] at h
        simp only at h
        exact ⟨j, rfl, decodeStoredScan_inv dp j d h⟩

/-- Witness for C7: a missing key and a malformed stored string both load
as no data, and loading a well-formed stored record exposes its fields. -/
theorem loadStoredScan_validates_or_none_witness :
    loadStoredScan (fun _ => true) "wpav-scan-1" [] = none ∧
    loadStoredScan (fun _ => true) "wpav-scan-1" [("wpav-scan-1", none)] = none ∧
    (∃ j, storeGetItem
        [("wpav-scan-1", some (encodeStoredScan ⟨1, 1, 0, [], [], "h", "t"⟩))]
        "wpav-scan-1" = some (some j) ∧
      jsTruthy j = true ∧ jsTypeofObject j = true ∧
      jsGet j "totalBlocks" = some (.jsNum (1 : Int)) ∧
      jsGet j "scannedBlocks" = some (.jsNum (1 : Int)) ∧
      jsGet j "skippedBlocks" = some (.jsNum (0 : Int)) ∧
      jsGet j "violations" = some (.jsArr []) ∧
      jsGet j "errors" = some (.jsArr []) ∧
      jsGet j "contentHash" = some (.jsStr "h") ∧
      jsGet j "completedAt" = some (.jsStr "t") ∧
      (fun _ => true) "t" = true) :=
  ⟨(loadStoredScan_validates_or_none (fun _ => true) "wpav-scan-1" []).1 rfl,
   (loadStoredScan_validates_or_none (fun _ => true) "wpav-scan-1"
      [("wpav-scan-1", none)]).2.1 rfl,
   (loadStoredScan_validates_or_none (fun _ => true) "wpav-scan-1"
      [("wpav-scan-1", some (encodeStoredScan ⟨1, 1, 0, [], [], "h", "t"⟩))]).2.2
     ⟨1, 1, 0, [], [], "h", "t"⟩ rfl⟩

/-! ## Concrete correlation scenarios

A preview document with two top-level blocks A and B: selector s1 matches
an element inside block A (stable id aaa), selector s2 matches an element
inside block B (stable id bbb). The stand-in hash is the identity, so a
block's stable id is its original content (all contents are at most 12
characters). -/

def c1Doc : LiveDoc := fun sel =>
  if sel = "s1" then .found [⟨[⟨[("data-wpav-block-id", "aaa")]⟩]⟩]
  else if sel = "s2" then .found [⟨[⟨[("data-wpav-block-id", "bbb")]⟩]⟩]
  else .found []

def c1BlockA : WPBlock := .mk "core/image" "client-a" "aaa" []

def c1BlockB : WPBlock := .mk "core/paragraph" "client-b" "bbb" []

def c1NodeA : AxeNode := ⟨["s1"], none⟩

def c1NodeB : AxeNode := ⟨["s2"], none⟩

/-- A raw finding whose two nodes lie in two distinct blocks. -/
def c1Violation : AxeViolation := ⟨"image-alt", [c1NodeA, c1NodeB]⟩

/-- C1 counterexample: a raw finding whose two nodes resolve to two
distinct units (stable ids aaa and bbb, both present in the top-level
block list) is correlated to exactly ONE finding, attributed to the first
resolving node's unit — not expanded into two findings with two unit
ids as the claim states. -/
theorem correlation_collapses_multi_unit_finding :
    resolveBlockIdLoop c1Doc [c1NodeA] none = some "aaa" ∧
    resolveBlockIdLoop c1Doc [c1NodeB] none = some "bbb" ∧
    generateBlockStableId (fun s => s) c1BlockA = "aaa" ∧
    generateBlockStableId (fun s => s) c1BlockB = "bbb" ∧
    correlateViolations c1Doc [c1BlockA, c1BlockB] (fun s => s) [c1Violation] =
      [⟨"image-alt", "core/image", "client-a"⟩] ∧
    (correlateViolations c1Doc [c1BlockA, c1BlockB] (fun s => s)
        [c1Violation]).length ≠ 2 := by
  decide

/-- C1 (amended): the correlation step never expands a raw finding: each
raw finding yields at most one correlated finding (the node loop stops at
the first truthy resolved identifier), so at most `results.length`
correlated findings are produced overall and a single multi-unit finding
yields at most one. -/
theorem correlateViolations_at_most_one_per_finding :
    ∀ (doc : LiveDoc) (blocks : List WPBlock) (md5 : String → String)
      (results : List AxeViolation),
      (correlateViolations doc blocks md5 results).length ≤ results.length ∧
      (∀ v, (correlateViolations doc blocks md5 [v]).length ≤ 1) := by
  have hlen : ∀ (doc : LiveDoc) (blocks : List WPBlock) (md5 : String → String)
      (results : List AxeViolation),
      (correlateViolations doc blocks md5 results).length ≤ results.length := by
    intro doc blocks md5 results
    unfold correlateViolations
    calc ((((results.map _).filter _).filterMap _)).length
        ≤ ((results.map fun v =>
            { v with nodes := v.nodes.filter (nodeInsideBlock doc) }).filter
              fun v => v.nodes.length > 0).length :=
          List.length_filterMap_le _ _
      _ ≤ (results.map fun v =>
            { v with nodes := v.nodes.filter (nodeInsideBlock doc) }).length :=
          List.length_filter_le _ _
      _ = results.length := List.length_map _ _
  intro doc blocks md5 results
  exact ⟨hlen doc blocks md5 results, fun v => hlen doc blocks md5 [v]⟩

/-- A document where selector s1 matches a live element inside the block
with stable id live-unit. -/
def c2Doc : LiveDoc := fun sel =>
  if sel = "s1" then .found [⟨[⟨[("data-wpav-block-id", "live-unit")]⟩]⟩]
  else .found []

/-- A node whose captured markup snippet carries the stable-id attribute
pattern AND whose selector matches a live element in a different block. -/
def c2Node : AxeNode := ⟨["s1"], some "<img data-wpav-block-id=\"snippet-unit\">"⟩

/-- C2 counterexample: for a node whose markup snippet contains the
stable-identifier attribute pattern, the correlation step resolves the
node via the live-document selector query, not via the snippet: the
resolved id is the one found by the live ancestor walk, which differs from
the id embedded in the snippet. The snippet is therefore not the first
strategy. -/
theorem correlation_snippet_not_first :
    extractBlockIdFromHtml "<img data-wpav-block-id=\"snippet-unit\">" =
      some "snippet-unit" ∧
    resolveBlockIdLoop c2Doc [c2Node] none = some "live-unit" ∧
    ("live-unit" : String) ≠ "snippet-unit" := by
  decide

/-- C2 (amended): the strategy order is reversed relative to the claim:
the live-document query on the node's first selector (with ancestor walk)
is tried first, and while it finds an element the markup snippet is
ignored entirely (changing the snippet cannot change the result); the
snippet pattern is consulted only when the live query yields no element,
in which case a truthy snippet whose pattern match succeeds determines the
resolved identifier. -/
theorem resolveNodeStep_live_query_first :
    ∀ (doc : LiveDoc) (node : AxeNode) (prev : Option String),
      (∀ h : Option String, firstTargetElement doc node.target ≠ none →
        resolveNodeStep doc node prev =
          resolveNodeStep doc { node with html := h } prev) ∧
      (∀ s v, firstTargetElement doc node.target = none →
        node.html = some s → s ≠ "" → extractBlockIdFromHtml s = some v →
        resolveNodeStep doc node prev = some v) := by
  intro doc node prev
  constructor
  · intro h hne
    unfold resolveNodeStep
    cases hft : firstTargetElement doc node.target with
    | none => exact absurd hft hne
    | some el => simp
  · intro s v hft hh hs hv
    unfold resolveNodeStep
    rw [hft, hh]
    simp [hs, hv]

/-- Witness for C2 (amended): with a live match the snippet is ignored;
without one a snippet carrying the pattern resolves the node. -/
theorem resolveNodeStep_live_query_first_witness :
    resolveNodeStep c2Doc c2Node none =
      resolveNodeStep c2Doc { c2Node with html := none } none ∧
    resolveNodeStep c2Doc ⟨["nope"], some "<div data-wpav-block-id=\"w-id\">"⟩ none =
      some "w-id" :=
  ⟨(resolveNodeStep_live_query_first c2Doc c2Node none).1 none (by decide),
   (resolveNodeStep_live_query_first c2Doc
      ⟨["nope"], some "<div data-wpav-block-id=\"w-id\">"⟩ none).2
     "<div data-wpav-block-id=\"w-id\">" "w-id" (by decide) rfl (by decide) (by decide)⟩

/-- A nested unit: the top-level group block contains an inner paragraph
block; selector s1 matches a live element inside the inner block (stable
id ccc). -/
def c3Child : WPBlock := .mk "core/paragraph" "client-child" "ccc" []

def c3Parent : WPBlock := .mk "core/group" "client-parent" "ppp" [c3Child]

def c3Doc : LiveDoc := fun sel =>
  if sel = "s1" then .found [⟨[⟨[("data-wpav-block-id", "ccc")]⟩]⟩]
  else .found []

def c3Violation : AxeViolation := ⟨"color-contrast", [⟨["s1"], none⟩]⟩

/-- C3 counterexample: a finding whose resolved identifier matches a unit
nested inside another unit is discarded: the resolved id ccc is the stable
id of the inner block, which is in the flattened unit tree, yet the
correlation step (which searches only the top-level block list) produces
no correlated finding. -/
theorem correlation_discards_nested_unit_match :
    resolveBlockIdLoop c3Doc c3Violation.nodes none = some "ccc" ∧
    generateBlockStableId (fun s => s) c3Child = "ccc" ∧
    c3Child ∈ flattenBlocks [c3Parent] ∧
    correlateViolations c3Doc [c3Parent] (fun s => s) [c3Violation] = [] := by
  refine ⟨by decide, by decide, ?_, by decide⟩
  simp [flattenBlocks, c3Parent, c3Child]

/-- C3 (amended): resolved identifiers are matched only against the
top-level block list handed to the correlation step, not against the
flattened tree: every emitted finding is attributed to a member of that
top-level list (whose generated stable id is the resolved identifier),
and a finding whose resolved identifier is generated by no member of that
list is discarded. -/
theorem correlateViolations_top_level_only :
    ∀ (doc : LiveDoc) (blocks : List WPBlock) (md5 : String → String),
      (∀ results f, f ∈ correlateViolations doc blocks md5 results →
        ∃ b, b ∈ blocks ∧ f.blockName = b.name ∧ f.blockClientId = b.clientId) ∧
      (∀ v bid, resolveBlockIdLoop doc v.nodes none = some bid →
        (∀ b, b ∈ blocks → generateBlockStableId md5 b ≠ bid) →
        mapViolationToBlock doc blocks md5 v = none) := by
  intro doc blocks md5
  constructor
  · intro results f hf
    unfold correlateViolations at hf
    obtain ⟨v, _, hv⟩ := List.mem_filterMap.mp hf
    unfold mapViolationToBlock at hv
    split at hv
    case _ bid hres =>
      split at hv
      case isTrue =>
        split at hv
        case _ b hfind =>
          cases hv
          exact ⟨b, List.mem_of_find?_eq_some hfind, rfl, rfl⟩
        case _ => exact absurd hv (by simp)
      case isFalse => exact absurd hv (by simp)
    case _ => exact absurd hv (by simp)
  · intro v bid hres hnone
    unfold mapViolationToBlock
    rw [hres]
    by_cases hbid : bid = ""
    · simp [hbid]
    · have hfind : blocks.find? (fun b => generateBlockStableId md5 b == bid) = none := by
        rw [List.find?_eq_none]
        intro b hb
        simp [hnone b hb]
      simp [hbid, hfind]

/-- Witness for C3 (amended): in the two-block scenario the emitted
finding is attributed to a top-level block, and a violation resolving to
an id no top-level block generates is dropped. -/
theorem correlateViolations_top_level_only_witness :
    (∃ b, b ∈ [c1BlockA, c1BlockB] ∧
      (ViolationWithContext.mk "image-alt" "core/image" "client-a").blockName = b.name ∧
      (ViolationWithContext.mk "image-alt" "core/image" "client-a").blockClientId =
        b.clientId) ∧
    mapViolationToBlock c3Doc [c3Parent] (fun s => s) c3Violation = none :=
  ⟨(correlateViolations_top_level_only c1Doc [c1BlockA, c1BlockB] (fun s => s)).1
      [c1Violation] ⟨"image-alt", "core/image", "client-a"⟩ (by decide),
   (correlateViolations_top_level_only c3Doc [c3Parent] (fun s => s)).2
      c3Violation "ccc" (by decide) (by decide)⟩
